import Mathlib

/-!
# Survey / fire-alert server (`server.go`)

A shallow embedding of the five HTTP handlers of `server.go` and of the parts of
their environment that decide what they answer:

* the `SurveyResults` table behind `db` (rows, auto-incremented `ID`, and whether the
  `UNIQUE` constraint on `Email` of `createTable` is in force);
* the `http.ResponseWriter` (header map, `WriteHeader`, `Write`);
* per request, the outcome of the calls that leave the process (`Env`): whether a query or an
  `Exec` returns a driver error, what the generation service answers, whether the database
  file exists and what `http.ServeFile` does with it.

Handlers are state-passing functions; `serve` is the router of `main`.
Console logging (`log.Println`, `fmt.Println`) has no effect on the response or the table
and is left out.  JSON decoding of the request body is represented by its outcome (the
decoded struct, or `none` when `Decode` returns an error); JSON encoding of a
`map[string]string` is represented by the map itself (`Chunk.json`).
-/

namespace Server

/-! ## Data model -/

/-- A byte string (`[]byte`). -/
abbrev Bytes := List Nat

/-- The struct `SurveyResponse`: what a survey body decodes to. -/
structure SurveyResponse where
  Email : String
  Address : String
  Score : Int
  Level : String
deriving DecidableEq

/-- The struct `OllamaRequest`. -/
structure OllamaRequest where
  Model : String
  Prompt : String
  Stream : Bool
deriving DecidableEq

/-- One row of the table `SurveyResults` created by `createTable`. -/
structure Row where
  ID : Nat
  Email : String
  Address : String
  Score : Int
  Level : String
deriving DecidableEq

/-- The table `SurveyResults` behind the handle `db`: its rows in insertion order, the next
`AUTOINCREMENT` value, and whether the `UNIQUE` constraint on `Email` is enforced
(`createTable` only logs a failure of its `CREATE TABLE`, so both cases are possible). -/
structure DB where
  rows : List Row
  nextID : Nat
  uniqueEmail : Bool
deriving DecidableEq

/-- The table right after `createTable` on a fresh database file. -/
def DB.empty (uniqueEmail : Bool) : DB := ⟨[], 1, uniqueEmail⟩

/-- Outcome of a database call: a value, `sql.ErrNoRows`, or any other driver error. -/
inductive SqlResult (α : Type) where
  | ok (a : α)
  | errNoRows
  | err
deriving DecidableEq

/-! ## The response writer -/

/-- One write to the response body. -/
inductive Chunk where
  /-- Written by `fmt.Fprintln(w, s)`: the text `s` and a newline. -/
  | line (s : String)
  /-- Written by `json.NewEncoder(w).Encode(m)` for a `map[string]string`. -/
  | json (m : List (String × String))
  /-- Written by `w.Write(b)`. -/
  | raw (b : Bytes)
deriving DecidableEq

/-- The header map `http.Header`, keys in canonical form. -/
abbrev Header := List (String × String)

/-- The call `h.Set(k, v)`. -/
def Header.Set : Header → String → String → Header
  | [], k, v => [(k, v)]
  | (k0, v0) :: t, k, v => if k0 = k then (k, v) :: t else (k0, v0) :: Header.Set t k v

/-- The call `h.Del(k)`. -/
def Header.Del (h : Header) (k : String) : Header :=
  h.filter (fun kv => kv.1 ≠ k)

/-- The call `h.Get(k)`, with `none` for an absent key. -/
def Header.Get : Header → String → Option String
  | [], _ => none
  | (k0, v0) :: t, k => if k0 = k then some v0 else Header.Get t k

/-- State of an `http.ResponseWriter`: the header map the handler edits, and once the status
line is written (`wroteHeader`) the status and the headers that were sent with it. -/
structure ResponseWriter where
  header : Header
  wroteHeader : Bool
  status : Nat
  sent : Header
  body : List Chunk
deriving DecidableEq

/-- The writer a handler receives. -/
def ResponseWriter.new : ResponseWriter := ⟨[], false, 0, [], []⟩

/-- The call `w.Header().Set(k, v)`. -/
def ResponseWriter.SetHeader (w : ResponseWriter) (k v : String) : ResponseWriter :=
  { w with header := w.header.Set k v }

/-- The call `w.Header().Del(k)`. -/
def ResponseWriter.DelHeader (w : ResponseWriter) (k : String) : ResponseWriter :=
  { w with header := w.header.Del k }

/-- The call `w.WriteHeader(code)`: the first call fixes the status and the headers sent,
later calls are ignored. -/
def ResponseWriter.WriteHeader (w : ResponseWriter) (code : Nat) : ResponseWriter :=
  if w.wroteHeader then w
  else { w with wroteHeader := true, status := code, sent := w.header }

/-- A write to the body: sends the status line with `StatusOK` first if none was sent. -/
def ResponseWriter.Write (w : ResponseWriter) (c : Chunk) : ResponseWriter :=
  let w1 := w.WriteHeader 200
  { w1 with body := w1.body ++ [c] }

/-- What the client receives. -/
structure Response where
  status : Nat
  header : Header
  body : List Chunk
deriving DecidableEq

/-- The server finishes the response when the handler returns: a handler that wrote nothing
answers `200` with the header map as it stands. -/
def ResponseWriter.finish (w : ResponseWriter) : Response :=
  let w1 := w.WriteHeader 200
  ⟨w1.status, w1.sent, w1.body⟩

def MethodGet : String := "GET"
def MethodPost : String := "POST"
def MethodOptions : String := "OPTIONS"

def StatusOK : Nat := 200
def StatusBadRequest : Nat := 400
def StatusNotFound : Nat := 404
def StatusMethodNotAllowed : Nat := 405
def StatusConflict : Nat := 409
def StatusInternalServerError : Nat := 500

/-- The library function `http.Error(w, msg, code)`: drops `Content-Length`, sets the two
plain-text headers, writes the status and then the message line. -/
def httpError (w : ResponseWriter) (msg : String) (code : Nat) : ResponseWriter :=
  let w1 := w.DelHeader "Content-Length"
  let w2 := w1.SetHeader "Content-Type" "text/plain; charset=utf-8"
  let w3 := w2.SetHeader "X-Content-Type-Options" "nosniff"
  (w3.WriteHeader code).Write (Chunk.line msg)

/-! ## The environment of one request -/

/-- Answer of the generation service to the outbound `http.Post`. -/
structure ServiceReply where
  StatusCode : Nat
  Body : Bytes
deriving DecidableEq

/-- The response headers `http.ServeFile` touches. -/
inductive FileHeader where
  | ContentType
  | ContentLength
  | ContentRange
  | ContentEncoding
  | AcceptRanges
  | LastModified
  | Etag
  | Location
  | XContentTypeOptions
deriving DecidableEq

def FileHeader.key : FileHeader → String
  | .ContentType => "Content-Type"
  | .ContentLength => "Content-Length"
  | .ContentRange => "Content-Range"
  | .ContentEncoding => "Content-Encoding"
  | .AcceptRanges => "Accept-Ranges"
  | .LastModified => "Last-Modified"
  | .Etag => "Etag"
  | .Location => "Location"
  | .XContentTypeOptions => "X-Content-Type-Options"

/-- What `http.ServeFile` does to the writer for the request at hand: header edits in order
(`some v` sets, `none` deletes), then the status, then the bytes written. -/
structure ServeFileEffect where
  ops : List (FileHeader × Option String)
  code : Nat
  content : Bytes
deriving DecidableEq

/-- Outcome of every call of one request that leaves the process. -/
structure Env where
  /-- The call `QueryRow(..).Scan(..)` returns a driver error (not `sql.ErrNoRows`). -/
  queryErr : Bool
  /-- The call `db.Exec` returns a driver error, whatever its cause (connection, column
  width, lock). -/
  execErr : Bool
  /-- The call `http.Post` to the generation service; `none` when it returns an error. -/
  post : OllamaRequest → Option ServiceReply
  /-- The test `os.IsNotExist(err)` on the result of `os.Stat(filePath)`. -/
  fileNotExist : Bool
  /-- The call `http.ServeFile(w, r, filePath)`. -/
  serveFile : ServeFileEffect

/-- An incoming request: method, path, and what `Decode` makes of the body for each of the
two structs a handler decodes into (`none`: `Decode` returns an error). -/
structure Request where
  Method : String
  Path : String
  survey : Option SurveyResponse
  ollama : Option OllamaRequest
deriving DecidableEq

/-! ## Database calls -/

/-- The query `SELECT Email FROM SurveyResults WHERE Email = ?` scanned into a string; the
comparison of the parameter with a stored email is string equality. -/
def queryEmail (env : Env) (db : DB) (email : String) : SqlResult String :=
  if env.queryErr then .err
  else match db.rows.find? (fun r => r.Email = email) with
    | some r => .ok r.Email
    | none => .errNoRows

/-- The row `SELECT TOP 1 .. ORDER BY ID DESC` selects: one with the greatest `ID`. -/
def topByIdDesc : List Row → Option Row
  | [] => none
  | r :: rs =>
    match topByIdDesc rs with
    | none => some r
    | some m => if r.ID < m.ID then some m else some r

/-- The query `SELECT TOP 1 Address FROM SurveyResults ORDER BY ID DESC` scanned into a
string. -/
def queryLastAddress (env : Env) (db : DB) : SqlResult String :=
  if env.queryErr then .err
  else match topByIdDesc db.rows with
    | some r => .ok r.Address
    | none => .errNoRows

/-- The statement `INSERT INTO SurveyResults (Email, Address, Score, [Level]) VALUES (?, ?, ?, ?)`:
fails on a driver error and, where the `UNIQUE` constraint is in force, on a stored email;
otherwise appends a row under the next `ID`. -/
def execInsert (env : Env) (db : DB) (email address : String) (score : Int) (level : String) :
    SqlResult DB :=
  if env.execErr then .err
  else if db.uniqueEmail && db.rows.any (fun r => r.Email = email) then .err
  else .ok { db with rows := db.rows ++ [⟨db.nextID, email, address, score, level⟩],
                     nextID := db.nextID + 1 }

/-! ## Handlers -/

/-- The function `enableCors`. -/
def enableCors (w : ResponseWriter) : ResponseWriter :=
  ((w.SetHeader "Access-Control-Allow-Origin" "*").SetHeader
    "Access-Control-Allow-Methods" "POST, GET, OPTIONS").SetHeader
    "Access-Control-Allow-Headers" "Content-Type"

/-- The function `handleFireAlert`; it only reads the table. -/
def handleFireAlert (env : Env) (db : DB) (r : Request) (w0 : ResponseWriter) : ResponseWriter :=
  let w := enableCors w0
  if r.Method ≠ MethodGet ∧ r.Method ≠ MethodPost then
    httpError w "\x7b\"error\": \"Метод запрещён\"\x7d" StatusMethodNotAllowed
  else
    match queryLastAddress env db with
    | .ok lastAddress =>
      (w.SetHeader "Content-Type" "application/json").Write
        (Chunk.json [("address", lastAddress)])
    | _ =>
      (((w.SetHeader "Content-Type" "application/json").WriteHeader
        StatusInternalServerError).Write
        (Chunk.json [("error", "Ошибка получения адреса из БД")]))

/-- The function `handleSurvey`; returns the table after the request and the writer. -/
def handleSurvey (env : Env) (db : DB) (r : Request) (w0 : ResponseWriter) :
    DB × ResponseWriter :=
  let w := enableCors w0
  if r.Method = MethodOptions then
    (db, w.WriteHeader StatusOK)
  else if r.Method ≠ MethodPost then
    (db, httpError w "❌ Метод запрещён" StatusMethodNotAllowed)
  else
    match r.survey with
    | none => (db, httpError w "❌ Ошибка JSON" StatusBadRequest)
    | some survey0 =>
      if survey0.Email = "" ∨ survey0.Address = "" then
        (db, httpError w "❌ Поля email и address обязательны" StatusBadRequest)
      else
        let survey : SurveyResponse :=
          if survey0.Score > 75 then
            { survey0 with Level := "Высокий уровень безопасности" }
          else if survey0.Score > 50 then
            { survey0 with Level := "Средний уровень безопасности" }
          else
            { survey0 with Level := "Низкий уровень безопасности" }
        match queryEmail env db survey.Email with
        | .ok _ => (db, httpError w "⚠ Email уже зарегистрирован!" StatusConflict)
        | _ =>
          match execInsert env db survey.Email survey.Address survey.Score survey.Level with
          | .ok db1 =>
            (db1, (w.WriteHeader StatusOK).Write (Chunk.line "✅ Данные успешно сохранены!"))
          | _ => (db, httpError w "❌ Ошибка записи в БД" StatusInternalServerError)

/-- The effect of `http.ServeFile` on the writer. -/
def applyServeFile (w : ResponseWriter) (e : ServeFileEffect) : ResponseWriter :=
  let w1 := e.ops.foldl
    (fun acc op =>
      match op.2 with
      | some v => acc.SetHeader op.1.key v
      | none => acc.DelHeader op.1.key) w
  (w1.WriteHeader e.code).Write (Chunk.raw e.content)

/-- The function `downloadAccessHandler`. -/
def downloadAccessHandler (env : Env) (w0 : ResponseWriter) : ResponseWriter :=
  let w := enableCors w0
  if env.fileNotExist then
    httpError w "❌ Файл не найден" StatusNotFound
  else
    let w1 := w.SetHeader "Content-Disposition" "attachment; filename=fire.accdb"
    let w2 := w1.SetHeader "Content-Type" "application/vnd.ms-access"
    applyServeFile w2 env.serveFile

/-- The function `handleGenerate`. -/
def handleGenerate (env : Env) (r : Request) (w0 : ResponseWriter) : ResponseWriter :=
  let w := enableCors w0
  if r.Method = MethodOptions then
    w.WriteHeader StatusOK
  else if r.Method ≠ MethodPost then
    httpError w "Метод запрещён" StatusMethodNotAllowed
  else
    match r.ollama with
    | none => httpError w "Ошибка JSON" StatusBadRequest
    | some request =>
      let ollamaReq : OllamaRequest := ⟨"llama3", request.Prompt, false⟩
      match env.post ollamaReq with
      | none => httpError w "Ошибка при запросе к Ollama" StatusInternalServerError
      | some resp =>
        (w.SetHeader "Content-Type" "application/json").Write (Chunk.raw resp.Body)

/-- The anonymous handler of `/ping`. -/
def handlePing (w0 : ResponseWriter) : ResponseWriter :=
  (enableCors w0).Write (Chunk.line "✅ Сервер работает!")

/-- The routes registered in `main` on the default mux (exact paths); any other path gets
the mux's own `http.NotFound`. Returns the table after the request and the response. -/
def serve (env : Env) (db : DB) (r : Request) : DB × Response :=
  if r.Path = "/submitSurvey" then
    let res := handleSurvey env db r ResponseWriter.new
    (res.1, res.2.finish)
  else if r.Path = "/downloadAccess" then
    (db, (downloadAccessHandler env ResponseWriter.new).finish)
  else if r.Path = "/generate" then
    (db, (handleGenerate env r ResponseWriter.new).finish)
  else if r.Path = "/fire-alert" then
    (db, (handleFireAlert env db r ResponseWriter.new).finish)
  else if r.Path = "/ping" then
    (db, (handlePing ResponseWriter.new).finish)
  else
    (db, (httpError ResponseWriter.new "404 page not found" StatusNotFound).finish)

/-- Requests served one after another, each with its own environment. -/
def run (db : DB) : List (Env × Request) → DB
  | [] => db
  | (env, r) :: rest => run (serve env db r).1 rest

/-- The three cross-origin headers of `enableCors` are in the header map. -/
def Header.hasCors (h : Header) : Prop :=
  h.Get "Access-Control-Allow-Origin" = some "*" ∧
  h.Get "Access-Control-Allow-Methods" = some "POST, GET, OPTIONS" ∧
  h.Get "Access-Control-Allow-Headers" = some "Content-Type"

/-- A header name that is none of the three cross-origin names. -/
def notCorsKey (k : String) : Prop :=
  k ≠ "Access-Control-Allow-Origin" ∧ k ≠ "Access-Control-Allow-Methods" ∧
  k ≠ "Access-Control-Allow-Headers"

/-- Writer invariant: the header map holds the cross-origin headers, and so do the headers
already sent, if any. -/
def ResponseWriter.corsOk (w : ResponseWriter) : Prop :=
  w.header.hasCors ∧ (w.wroteHeader = true → w.sent.hasCors)

/-- An environment in which no call fails: the service answers `200` with an empty body and
the file is served whole. -/
def Env.quiet : Env :=
  { queryErr := false, execErr := false, post := fun _ => some ⟨200, []⟩,
    fileNotExist := false, serveFile := ⟨[], 200, []⟩ }

/-! ## Header map and writer lemmas -/

theorem Header.Get_Set_same (h : Header) (k v : String) : (h.Set k v).Get k = some v := by
  induction h with
  | nil => simp [Header.Set, Header.Get]
  | cons kv t ih =>
    obtain ⟨k0, v0⟩ := kv
    by_cases hk : k0 = k
    · simp [Header.Set, Header.Get, hk]
    · simp [Header.Set, Header.Get, hk, ih]

theorem Header.Get_Set_ne (h : Header) (k0 k v : String) (hne : k0 ≠ k) :
    (h.Set k0 v).Get k = h.Get k := by
  induction h with
  | nil => simp [Header.Set, Header.Get, hne]
  | cons kv t ih =>
    obtain ⟨k1, v1⟩ := kv
    by_cases hk : k1 = k0
    · subst hk
      simp [Header.Set, Header.Get, hne]
    · by_cases hk1 : k1 = k
      · subst hk1
        simp [Header.Set, Header.Get, hk]
      · simp [Header.Set, Header.Get, hk, hk1, ih]

theorem Header.Get_Del_ne (h : Header) (k0 k : String) (hne : k0 ≠ k) :
    (h.Del k0).Get k = h.Get k := by
  induction h with
  | nil => simp [Header.Del, Header.Get]
  | cons kv t ih =>
    obtain ⟨k1, v1⟩ := kv
    simp only [Header.Del, ne_eq, decide_not] at ih ⊢
    rw [List.filter_cons]
    by_cases hk : k1 = k0
    · subst hk
      simp [Header.Get, hne, ih]
    · by_cases hk1 : k1 = k
      · subst hk1
        simp [Header.Get, hk]
      · simp [Header.Get, hk, hk1, ih]

theorem Header.hasCors_Set (h : Header) (k v : String) (hk : notCorsKey k) (hc : h.hasCors) :
    (h.Set k v).hasCors := by
  obtain ⟨h1, h2, h3⟩ := hk
  obtain ⟨c1, c2, c3⟩ := hc
  exact ⟨by rw [Header.Get_Set_ne h k _ v h1]; exact c1,
         by rw [Header.Get_Set_ne h k _ v h2]; exact c2,
         by rw [Header.Get_Set_ne h k _ v h3]; exact c3⟩

theorem Header.hasCors_Del (h : Header) (k : String) (hk : notCorsKey k) (hc : h.hasCors) :
    (h.Del k).hasCors := by
  obtain ⟨h1, h2, h3⟩ := hk
  obtain ⟨c1, c2, c3⟩ := hc
  exact ⟨by rw [Header.Get_Del_ne h k _ h1]; exact c1,
         by rw [Header.Get_Del_ne h k _ h2]; exact c2,
         by rw [Header.Get_Del_ne h k _ h3]; exact c3⟩

theorem corsOk_SetHeader (w : ResponseWriter) (k v : String) (hk : notCorsKey k)
    (hw : w.corsOk) : (w.SetHeader k v).corsOk :=
  ⟨Header.hasCors_Set w.header k v hk hw.1, hw.2⟩

theorem corsOk_DelHeader (w : ResponseWriter) (k : String) (hk : notCorsKey k)
    (hw : w.corsOk) : (w.DelHeader k).corsOk :=
  ⟨Header.hasCors_Del w.header k hk hw.1, hw.2⟩

theorem corsOk_WriteHeader (w : ResponseWriter) (code : Nat) (hw : w.corsOk) :
    (w.WriteHeader code).corsOk := by
  unfold ResponseWriter.WriteHeader
  split
  · exact hw
  · exact ⟨hw.1, fun _ => hw.1⟩

theorem corsOk_Write (w : ResponseWriter) (c : Chunk) (hw : w.corsOk) : (w.Write c).corsOk := by
  have h := corsOk_WriteHeader w 200 hw
  exact ⟨h.1, h.2⟩

theorem corsOk_finish (w : ResponseWriter) (hw : w.corsOk) : w.finish.header.hasCors := by
  have h := corsOk_WriteHeader w 200 hw
  apply h.2
  unfold ResponseWriter.WriteHeader
  split
  · assumption
  · rfl

theorem corsOk_enableCors (w : ResponseWriter) (hw : w.wroteHeader = false) :
    (enableCors w).corsOk := by
  refine ⟨⟨?_, ?_, ?_⟩, ?_⟩
  · show (((w.header.Set _ _).Set _ _).Set _ _).Get _ = _
    rw [Header.Get_Set_ne _ _ _ _ (by decide), Header.Get_Set_ne _ _ _ _ (by decide),
      Header.Get_Set_same]
  · show (((w.header.Set _ _).Set _ _).Set _ _).Get _ = _
    rw [Header.Get_Set_ne _ _ _ _ (by decide), Header.Get_Set_same]
  · show (((w.header.Set _ _).Set _ _).Set _ _).Get _ = _
    rw [Header.Get_Set_same]
  · intro h
    have : w.wroteHeader = true := h
    rw [hw] at this
    exact absurd this (by decide)

theorem corsOk_httpError (w : ResponseWriter) (msg : String) (code : Nat) (hw : w.corsOk) :
    (httpError w msg code).corsOk := by
  unfold httpError
  apply corsOk_Write
  apply corsOk_WriteHeader
  apply corsOk_SetHeader _ _ _ (by unfold notCorsKey; decide)
  apply corsOk_SetHeader _ _ _ (by unfold notCorsKey; decide)
  exact corsOk_DelHeader _ _ (by unfold notCorsKey; decide) hw

theorem FileHeader.key_notCors (f : FileHeader) : notCorsKey f.key := by
  cases f <;> (unfold notCorsKey FileHeader.key; decide)

theorem corsOk_foldl_ops (ops : List (FileHeader × Option String)) (w : ResponseWriter)
    (hw : w.corsOk) :
    (ops.foldl
      (fun acc op =>
        match op.2 with
        | some v => acc.SetHeader op.1.key v
        | none => acc.DelHeader op.1.key) w).corsOk := by
  induction ops generalizing w with
  | nil => exact hw
  | cons op t ih =>
    rw [List.foldl_cons]
    apply ih
    obtain ⟨f, o⟩ := op
    cases o with
    | none => exact corsOk_DelHeader _ _ f.key_notCors hw
    | some v => exact corsOk_SetHeader _ _ _ f.key_notCors hw

theorem corsOk_applyServeFile (w : ResponseWriter) (e : ServeFileEffect) (hw : w.corsOk) :
    (applyServeFile w e).corsOk := by
  unfold applyServeFile
  apply corsOk_Write
  apply corsOk_WriteHeader
  exact corsOk_foldl_ops e.ops w hw

theorem corsOk_handleSurvey (env : Env) (db : DB) (r : Request) (w : ResponseWriter)
    (hw : w.wroteHeader = false) : (handleSurvey env db r w).2.corsOk := by
  have h0 := corsOk_enableCors w hw
  unfold handleSurvey
  simp only []
  repeat' first
    | exact corsOk_WriteHeader _ _ h0
    | exact corsOk_httpError _ _ _ h0
    | exact corsOk_Write _ _ (corsOk_WriteHeader _ _ h0)
    | split

theorem corsOk_handleFireAlert (env : Env) (db : DB) (r : Request) (w : ResponseWriter)
    (hw : w.wroteHeader = false) : (handleFireAlert env db r w).corsOk := by
  have h0 := corsOk_enableCors w hw
  unfold handleFireAlert
  simp only []
  split_ifs
  · exact corsOk_httpError _ _ _ h0
  · split
    · exact corsOk_Write _ _ (corsOk_SetHeader _ _ _ (by unfold notCorsKey; decide) h0)
    · exact corsOk_Write _ _ (corsOk_WriteHeader _ _
        (corsOk_SetHeader _ _ _ (by unfold notCorsKey; decide) h0))

theorem corsOk_downloadAccessHandler (env : Env) (w : ResponseWriter)
    (hw : w.wroteHeader = false) : (downloadAccessHandler env w).corsOk := by
  have h0 := corsOk_enableCors w hw
  unfold downloadAccessHandler
  simp only []
  split_ifs
  · exact corsOk_httpError _ _ _ h0
  · apply corsOk_applyServeFile
    apply corsOk_SetHeader _ _ _ (by unfold notCorsKey; decide)
    exact corsOk_SetHeader _ _ _ (by unfold notCorsKey; decide) h0

theorem corsOk_handleGenerate (env : Env) (r : Request) (w : ResponseWriter)
    (hw : w.wroteHeader = false) : (handleGenerate env r w).corsOk := by
  have h0 := corsOk_enableCors w hw
  unfold handleGenerate
  simp only []
  split_ifs <;> try first
    | exact corsOk_WriteHeader _ _ h0
    | exact corsOk_httpError _ _ _ h0
  split
  · exact corsOk_httpError _ _ _ h0
  · split
    · exact corsOk_httpError _ _ _ h0
    · exact corsOk_Write _ _ (corsOk_SetHeader _ _ _ (by unfold notCorsKey; decide) h0)

theorem corsOk_handlePing (w : ResponseWriter) (hw : w.wroteHeader = false) :
    (handlePing w).corsOk :=
  corsOk_Write _ _ (corsOk_enableCors w hw)

/-! ## What `handleSurvey` does on each branch -/

theorem find_email_none (rows : List Row) (email : String)
    (hnew : ∀ row ∈ rows, row.Email ≠ email) :
    rows.find? (fun r => r.Email = email) = none := by
  rw [List.find?_eq_none]
  intro row hrow
  simpa using hnew row hrow

theorem any_email_false (rows : List Row) (email : String)
    (hnew : ∀ row ∈ rows, row.Email ≠ email) :
    rows.any (fun r => r.Email = email) = false := by
  rw [List.any_eq_false]
  intro row hrow
  simpa using hnew row hrow

theorem queryEmail_found (env : Env) (db : DB) (email : String) (hq : env.queryErr = false)
    (hstored : ∃ row ∈ db.rows, row.Email = email) :
    queryEmail env db email = .ok email := by
  obtain ⟨row, hrow, hemail⟩ := hstored
  unfold queryEmail
  rw [hq]
  cases hfind : db.rows.find? (fun r => r.Email = email) with
  | none =>
    rw [List.find?_eq_none] at hfind
    have := hfind row hrow
    simp [hemail] at this
  | some r0 =>
    have h := List.find?_some hfind
    simp only [decide_eq_true_eq] at h
    simp [h]

theorem queryEmail_not_found (env : Env) (db : DB) (email : String) (hq : env.queryErr = false)
    (hnew : ∀ row ∈ db.rows, row.Email ≠ email) :
    queryEmail env db email = .errNoRows := by
  unfold queryEmail
  rw [hq, find_email_none db.rows email hnew]
  rfl

theorem execInsert_err (env : Env) (db : DB) (email address : String) (score : Int)
    (level : String) (hx : env.execErr = true) :
    execInsert env db email address score level = .err := by
  simp [execInsert, hx]

theorem execInsert_ok (env : Env) (db : DB) (email address : String) (score : Int)
    (level : String) (hx : env.execErr = false) (hnew : ∀ row ∈ db.rows, row.Email ≠ email) :
    execInsert env db email address score level =
      .ok { db with rows := db.rows ++ [⟨db.nextID, email, address, score, level⟩],
                    nextID := db.nextID + 1 } := by
  simp [execInsert, hx, any_email_false db.rows email hnew]

theorem execInsert_shape (env : Env) (db : DB) (email address : String) (score : Int)
    (level : String) (db1 : DB) (h : execInsert env db email address score level = .ok db1) :
    db1 = { db with rows := db.rows ++ [⟨db.nextID, email, address, score, level⟩],
                    nextID := db.nextID + 1 } := by
  unfold execInsert at h
  split_ifs at h
  exact (SqlResult.ok.inj h).symm

theorem handleSurvey_not_post (env : Env) (db : DB) (r : Request) (w : ResponseWriter)
    (hm : r.Method ≠ "POST") :
    handleSurvey env db r w =
      if r.Method = "OPTIONS" then (db, (enableCors w).WriteHeader 200)
      else (db, httpError (enableCors w) "❌ Метод запрещён" 405) := by
  unfold handleSurvey
  simp only [MethodOptions, MethodPost, StatusOK, StatusMethodNotAllowed]
  split_ifs <;> rfl

theorem handleSurvey_no_body (env : Env) (db : DB) (r : Request) (w : ResponseWriter)
    (hm : r.Method = "POST") (hbody : r.survey = none) :
    handleSurvey env db r w = (db, httpError (enableCors w) "❌ Ошибка JSON" 400) := by
  unfold handleSurvey
  simp [MethodOptions, MethodPost, StatusBadRequest, hm, hbody]

theorem handleSurvey_empty_field (env : Env) (db : DB) (r : Request) (w : ResponseWriter)
    (survey : SurveyResponse) (hm : r.Method = "POST") (hbody : r.survey = some survey)
    (hempty : survey.Email = "" ∨ survey.Address = "") :
    handleSurvey env db r w =
      (db, httpError (enableCors w) "❌ Поля email и address обязательны" 400) := by
  unfold handleSurvey
  simp [MethodOptions, MethodPost, StatusBadRequest, hm, hbody, hempty]

theorem handleSurvey_lookup_ok (env : Env) (db : DB) (r : Request) (w : ResponseWriter)
    (survey : SurveyResponse) (e : String) (hm : r.Method = "POST")
    (hbody : r.survey = some survey)
    (he : survey.Email ≠ "") (ha : survey.Address ≠ "")
    (hfound : queryEmail env db survey.Email = .ok e) :
    handleSurvey env db r w =
      (db, httpError (enableCors w) "⚠ Email уже зарегистрирован!" 409) := by
  unfold handleSurvey
  simp only [MethodOptions, MethodPost, StatusConflict, hm, hbody, he, ha, or_self,
    if_false, ne_eq, not_true_eq_false, (by decide : ¬ "POST" = "OPTIONS")]
  split_ifs <;> simp [hfound]

theorem handleSurvey_conflict (env : Env) (db : DB) (r : Request) (w : ResponseWriter)
    (survey : SurveyResponse) (hm : r.Method = "POST") (hbody : r.survey = some survey)
    (he : survey.Email ≠ "") (ha : survey.Address ≠ "") (hq : env.queryErr = false)
    (hstored : ∃ row ∈ db.rows, row.Email = survey.Email) :
    handleSurvey env db r w =
      (db, httpError (enableCors w) "⚠ Email уже зарегистрирован!" 409) :=
  handleSurvey_lookup_ok env db r w survey survey.Email hm hbody he ha
    (queryEmail_found env db survey.Email hq hstored)

theorem handleSurvey_lookup_not_ok (env : Env) (db : DB) (r : Request) (w : ResponseWriter)
    (survey : SurveyResponse) (hm : r.Method = "POST") (hbody : r.survey = some survey)
    (he : survey.Email ≠ "") (ha : survey.Address ≠ "")
    (hlookup : ∀ e, queryEmail env db survey.Email ≠ .ok e) :
    handleSurvey env db r w =
      match execInsert env db survey.Email survey.Address survey.Score
          (if survey.Score > 75 then "Высокий уровень безопасности"
           else if survey.Score > 50 then "Средний уровень безопасности"
           else "Низкий уровень безопасности") with
      | .ok db1 =>
        (db1, ((enableCors w).WriteHeader 200).Write (Chunk.line "✅ Данные успешно сохранены!"))
      | _ => (db, httpError (enableCors w) "❌ Ошибка записи в БД" 500) := by
  unfold handleSurvey
  simp only [MethodOptions, MethodPost, StatusOK, StatusInternalServerError, hm, hbody, he, ha,
    or_self, if_false, ne_eq, not_true_eq_false, (by decide : ¬ "POST" = "OPTIONS")]
  by_cases h1 : survey.Score > 75 <;> by_cases h2 : survey.Score > 50 <;>
  · simp only [h1, h2, if_true, if_false]

theorem queryEmail_not_ok (env : Env) (db : DB) (email : String)
    (hnew : ∀ row ∈ db.rows, row.Email ≠ email) :
    ∀ e, queryEmail env db email ≠ .ok e := by
  intro e
  unfold queryEmail
  rw [find_email_none db.rows email hnew]
  split_ifs <;> simp

theorem handleSurvey_accept_any_lookup (env : Env) (db : DB) (r : Request)
    (w : ResponseWriter)
    (survey : SurveyResponse) (hm : r.Method = "POST") (hbody : r.survey = some survey)
    (he : survey.Email ≠ "") (ha : survey.Address ≠ "")
    (hnew : ∀ row ∈ db.rows, row.Email ≠ survey.Email)
    (hx : env.execErr = false) :
    handleSurvey env db r w =
      ({ db with
          rows := db.rows ++ [⟨db.nextID, survey.Email, survey.Address, survey.Score,
            if survey.Score > 75 then "Высокий уровень безопасности"
            else if survey.Score > 50 then "Средний уровень безопасности"
            else "Низкий уровень безопасности"⟩],
          nextID := db.nextID + 1 },
       ((enableCors w).WriteHeader 200).Write (Chunk.line "✅ Данные успешно сохранены!")) := by
  rw [handleSurvey_lookup_not_ok env db r w survey hm hbody he ha
    (queryEmail_not_ok env db survey.Email hnew)]
  rw [execInsert_ok env db _ _ _ _ hx hnew]

theorem handleSurvey_accept (env : Env) (db : DB) (r : Request) (w : ResponseWriter)
    (survey : SurveyResponse) (hm : r.Method = "POST") (hbody : r.survey = some survey)
    (he : survey.Email ≠ "") (ha : survey.Address ≠ "")
    (hnew : ∀ row ∈ db.rows, row.Email ≠ survey.Email)
    (hq : env.queryErr = false) (hx : env.execErr = false) :
    handleSurvey env db r w =
      ({ db with
          rows := db.rows ++ [⟨db.nextID, survey.Email, survey.Address, survey.Score,
            if survey.Score > 75 then "Высокий уровень безопасности"
            else if survey.Score > 50 then "Средний уровень безопасности"
            else "Низкий уровень безопасности"⟩],
          nextID := db.nextID + 1 },
       ((enableCors w).WriteHeader 200).Write (Chunk.line "✅ Данные успешно сохранены!")) := by
  rw [handleSurvey_lookup_not_ok env db r w survey hm hbody he ha
    (by intro e; rw [queryEmail_not_found env db survey.Email hq hnew]; simp)]
  rw [execInsert_ok env db _ _ _ _ hx hnew]

theorem serve_submitSurvey (env : Env) (db : DB) (r : Request) (hpath : r.Path = "/submitSurvey") :
    serve env db r =
      ((handleSurvey env db r ResponseWriter.new).1,
       (handleSurvey env db r ResponseWriter.new).2.finish) := by
  unfold serve
  simp [hpath]

theorem serve_accept_db (env : Env) (db : DB) (r : Request) (survey : SurveyResponse)
    (hpath : r.Path = "/submitSurvey") (hm : r.Method = "POST")
    (hbody : r.survey = some survey)
    (he : survey.Email ≠ "") (ha : survey.Address ≠ "")
    (hnew : ∀ row ∈ db.rows, row.Email ≠ survey.Email)
    (hq : env.queryErr = false) (hx : env.execErr = false) :
    (serve env db r).1 =
      { db with
          rows := db.rows ++ [⟨db.nextID, survey.Email, survey.Address, survey.Score,
            if survey.Score > 75 then "Высокий уровень безопасности"
            else if survey.Score > 50 then "Средний уровень безопасности"
            else "Низкий уровень безопасности"⟩],
          nextID := db.nextID + 1 } := by
  rw [serve_submitSurvey env db r hpath,
    handleSurvey_accept env db r _ survey hm hbody he ha hnew hq hx]

/-! ## Survey submissions -/

/-- C1: an accepted POST to `/submitSurvey` (body decodes, email and address non-empty, email
not stored, insert succeeds; the lookup may answer no row or fail) with score `s` appends one
row whose level is fixed by `s` alone, whatever level the body carried: the high label when
`s > 75`, the medium label when `50 < s ≤ 75`, the low label when `s ≤ 50`; the three cases
cover every integer and no two of them overlap. -/
theorem survey_level_from_score (env : Env) (db : DB) (r : Request) (survey : SurveyResponse)
    (hpath : r.Path = "/submitSurvey") (hm : r.Method = "POST")
    (hbody : r.survey = some survey)
    (he : survey.Email ≠ "") (ha : survey.Address ≠ "")
    (hnew : ∀ row ∈ db.rows, row.Email ≠ survey.Email)
    (hx : env.execErr = false) :
    (∃ level : String,
      (serve env db r).1.rows =
        db.rows ++ [⟨db.nextID, survey.Email, survey.Address, survey.Score, level⟩] ∧
      (serve env db r).2.status = 200 ∧
      (survey.Score > 75 → level = "Высокий уровень безопасности") ∧
      (50 < survey.Score ∧ survey.Score ≤ 75 → level = "Средний уровень безопасности") ∧
      (survey.Score ≤ 50 → level = "Низкий уровень безопасности")) ∧
    (survey.Score > 75 ∨ (50 < survey.Score ∧ survey.Score ≤ 75) ∨ survey.Score ≤ 50) ∧
    ¬ (survey.Score > 75 ∧ (50 < survey.Score ∧ survey.Score ≤ 75)) ∧
    ¬ (survey.Score > 75 ∧ survey.Score ≤ 50) ∧
    ¬ ((50 < survey.Score ∧ survey.Score ≤ 75) ∧ survey.Score ≤ 50) := by
  refine ⟨⟨if survey.Score > 75 then "Высокий уровень безопасности"
      else if survey.Score > 50 then "Средний уровень безопасности"
      else "Низкий уровень безопасности", ?_, ?_, ?_, ?_, ?_⟩,
    by omega, by omega, by omega, by omega⟩
  · rw [serve_submitSurvey env db r hpath,
      handleSurvey_accept_any_lookup env db r _ survey hm hbody he ha hnew hx]
  · rw [serve_submitSurvey env db r hpath,
      handleSurvey_accept_any_lookup env db r _ survey hm hbody he ha hnew hx]
    rfl
  · intro h
    simp [h]
  · intro h
    have h1 : ¬ survey.Score > 75 := by omega
    have h2 : survey.Score > 50 := by omega
    simp [h1, h2]
  · intro h
    have h1 : ¬ survey.Score > 75 := by omega
    have h2 : ¬ survey.Score > 50 := by omega
    simp [h1, h2]

/-- Witness for C1: score 75 with a body that carries its own level, the lookup failing with
a driver error, on a table that holds another email. -/
theorem survey_level_from_score_witness :
    ∃ level : String,
      (serve { Env.quiet with queryErr := true }
        ⟨[⟨1, "b@x.com", "9 Elm St", 10, "x"⟩], 2, true⟩
        ⟨"POST", "/submitSurvey", some ⟨"a@x.com", "1 Main St", 75, "custom"⟩, none⟩).1.rows =
        [⟨1, "b@x.com", "9 Elm St", 10, "x"⟩] ++ [⟨2, "a@x.com", "1 Main St", 75, level⟩] ∧
      level = "Средний уровень безопасности" := by
  obtain ⟨⟨level, hrows, _, _, hmid, _⟩, _⟩ :=
    survey_level_from_score { Env.quiet with queryErr := true }
      ⟨[⟨1, "b@x.com", "9 Elm St", 10, "x"⟩], 2, true⟩
      ⟨"POST", "/submitSurvey", some ⟨"a@x.com", "1 Main St", 75, "custom"⟩, none⟩
      ⟨"a@x.com", "1 Main St", 75, "custom"⟩ rfl rfl rfl (by decide) (by decide)
      (by decide) rfl
  exact ⟨level, hrows, hmid (by decide)⟩

/-- C3: a POST to `/submitSurvey` whose body decodes and whose email or address is empty is
answered `400` for every score, every other field, every table and every outcome of the
database calls, and leaves the table as it was; the answer is the same under any environment
(no lookup or insert is consulted). -/
theorem empty_field_gives_400 (env : Env) (db : DB) (r : Request) (survey : SurveyResponse)
    (hpath : r.Path = "/submitSurvey") (hm : r.Method = "POST")
    (hbody : r.survey = some survey)
    (hempty : survey.Email = "" ∨ survey.Address = "") :
    (serve env db r).2.status = 400 ∧ (serve env db r).1 = db ∧
    ∀ env2 : Env, serve env2 db r = serve env db r := by
  refine ⟨?_, ?_, ?_⟩
  · rw [serve_submitSurvey env db r hpath,
      handleSurvey_empty_field env db r _ survey hm hbody hempty]
    rfl
  · rw [serve_submitSurvey env db r hpath,
      handleSurvey_empty_field env db r _ survey hm hbody hempty]
  · intro env2
    rw [serve_submitSurvey env db r hpath, serve_submitSurvey env2 db r hpath,
      handleSurvey_empty_field env db r _ survey hm hbody hempty,
      handleSurvey_empty_field env2 db r _ survey hm hbody hempty]

/-- Witness for C3: an empty address with a stored-looking email, while the database fails. -/
theorem empty_field_gives_400_witness :
    (("a@x.com" : String) = "" ∨ ("" : String) = "") ∧
    (serve { Env.quiet with queryErr := true, execErr := true }
      ⟨[⟨1, "a@x.com", "1 Main St", 80, "x"⟩], 2, true⟩
      ⟨"POST", "/submitSurvey", some ⟨"a@x.com", "", 80, ""⟩, none⟩).2.status = 400 :=
  ⟨Or.inr rfl,
   (empty_field_gives_400 { Env.quiet with queryErr := true, execErr := true }
      ⟨[⟨1, "a@x.com", "1 Main St", 80, "x"⟩], 2, true⟩
      ⟨"POST", "/submitSurvey", some ⟨"a@x.com", "", 80, ""⟩, none⟩
      ⟨"a@x.com", "", 80, ""⟩ rfl rfl rfl (Or.inr rfl)).1⟩

/-- C2: two consecutive valid POSTs to `/submitSurvey` with the same email, not stored
beforehand, database calls succeeding: the first is answered `200` and appends one row with
its address, its score and the level of its score, the second is answered `409` and leaves
the table untouched, so the table ends with exactly one row for that email, the first
submission's. -/
theorem duplicate_email_conflict (env1 env2 : Env) (db : DB) (r1 r2 : Request)
    (s1 s2 : SurveyResponse)
    (hpath1 : r1.Path = "/submitSurvey") (hm1 : r1.Method = "POST") (hbody1 : r1.survey = some s1)
    (hpath2 : r2.Path = "/submitSurvey") (hm2 : r2.Method = "POST") (hbody2 : r2.survey = some s2)
    (he : s1.Email ≠ "") (ha1 : s1.Address ≠ "") (ha2 : s2.Address ≠ "")
    (hsame : s2.Email = s1.Email)
    (hnew : ∀ row ∈ db.rows, row.Email ≠ s1.Email)
    (hq1 : env1.queryErr = false) (hx1 : env1.execErr = false)
    (hq2 : env2.queryErr = false) :
    (serve env1 db r1).2.status = 200 ∧
    (serve env2 (serve env1 db r1).1 r2).2.status = 409 ∧
    (serve env2 (serve env1 db r1).1 r2).1 = (serve env1 db r1).1 ∧
    ∃ row : Row,
      (serve env1 db r1).1.rows = db.rows ++ [row] ∧
      row.Email = s1.Email ∧ row.Address = s1.Address ∧ row.Score = s1.Score ∧
      row.Level = (if s1.Score > 75 then "Высокий уровень безопасности"
        else if s1.Score > 50 then "Средний уровень безопасности"
        else "Низкий уровень безопасности") ∧
      (serve env2 (serve env1 db r1).1 r2).1.rows.filter (fun x => x.Email = s1.Email) = [row] := by
  have h1 := handleSurvey_accept env1 db r1 ResponseWriter.new s1 hm1 hbody1 he ha1 hnew hq1 hx1
  have hs1 : serve env1 db r1 = _ := serve_submitSurvey env1 db r1 hpath1
  rw [h1] at hs1
  simp only [] at hs1
  rw [hs1]
  simp only []
  have he2 : s2.Email ≠ "" := by rw [hsame]; exact he
  have h2 := handleSurvey_conflict env2
    { db with
        rows := db.rows ++ [⟨db.nextID, s1.Email, s1.Address, s1.Score,
          if s1.Score > 75 then "Высокий уровень безопасности"
          else if s1.Score > 50 then "Средний уровень безопасности"
          else "Низкий уровень безопасности"⟩],
        nextID := db.nextID + 1 }
    r2 ResponseWriter.new s2 hm2 hbody2 he2 ha2 hq2
    ⟨_, List.mem_append_right _ (List.mem_singleton_self _), hsame.symm⟩
  rw [serve_submitSurvey env2 _ r2 hpath2, h2]
  refine ⟨rfl, rfl, rfl, _, rfl, rfl, rfl, rfl, rfl, ?_⟩
  simp only [List.filter_append]
  have hnone : db.rows.filter (fun x => x.Email = s1.Email) = [] := by
    rw [List.filter_eq_nil_iff]
    intro row hrow
    simpa using hnew row hrow
  rw [hnone]
  simp

/-- Witness for C2: the same email twice on a table that already holds another email. -/
theorem duplicate_email_conflict_witness :
    (serve Env.quiet ⟨[⟨1, "b@x.com", "9 Elm St", 10, "x"⟩], 2, false⟩
      ⟨"POST", "/submitSurvey", some ⟨"a@x.com", "1 Main St", 80, ""⟩, none⟩).2.status = 200 ∧
    (serve Env.quiet
      (serve Env.quiet ⟨[⟨1, "b@x.com", "9 Elm St", 10, "x"⟩], 2, false⟩
        ⟨"POST", "/submitSurvey", some ⟨"a@x.com", "1 Main St", 80, ""⟩, none⟩).1
      ⟨"POST", "/submitSurvey", some ⟨"a@x.com", "2 Oak St", 20, ""⟩, none⟩).2.status = 409 :=
  have h := duplicate_email_conflict Env.quiet Env.quiet
    ⟨[⟨1, "b@x.com", "9 Elm St", 10, "x"⟩], 2, false⟩
    ⟨"POST", "/submitSurvey", some ⟨"a@x.com", "1 Main St", 80, ""⟩, none⟩
    ⟨"POST", "/submitSurvey", some ⟨"a@x.com", "2 Oak St", 20, ""⟩, none⟩
    ⟨"a@x.com", "1 Main St", 80, ""⟩ ⟨"a@x.com", "2 Oak St", 20, ""⟩
    rfl rfl rfl rfl rfl rfl (by decide) (by decide) (by decide) rfl (by decide) rfl rfl rfl
  ⟨h.1, h.2.1⟩

/-- C9 as stated fails: an `OPTIONS` request to `/submitSurvey` is not a POST, yet it is
answered `200`, which is no client-error status. -/
theorem options_survey_not_rejected :
    ("OPTIONS" : String) ≠ "POST" ∧
    (serve Env.quiet (DB.empty true) ⟨"OPTIONS", "/submitSurvey", none, none⟩).2.status = 200 ∧
    ¬ (400 ≤ (serve Env.quiet (DB.empty true)
          ⟨"OPTIONS", "/submitSurvey", none, none⟩).2.status ∧
       (serve Env.quiet (DB.empty true)
          ⟨"OPTIONS", "/submitSurvey", none, none⟩).2.status < 500) := by
  decide

/-- C9 amended: a request to `/submitSurvey` whose method is not POST never changes the
table, for every body, table and environment; it is answered `405` unless the method is
`OPTIONS`, which is answered `200` with an empty body. -/
theorem non_post_survey (env : Env) (db : DB) (r : Request)
    (hpath : r.Path = "/submitSurvey") (hm : r.Method ≠ "POST") :
    (serve env db r).1 = db ∧
    (r.Method ≠ "OPTIONS" → (serve env db r).2.status = 405) ∧
    (r.Method = "OPTIONS" →
      (serve env db r).2.status = 200 ∧ (serve env db r).2.body = []) := by
  rw [serve_submitSurvey env db r hpath, handleSurvey_not_post env db r _ hm]
  by_cases ho : r.Method = "OPTIONS"
  · rw [if_pos ho]
    exact ⟨rfl, fun h => absurd ho h, fun _ => ⟨rfl, rfl⟩⟩
  · rw [if_neg ho]
    exact ⟨rfl, fun _ => rfl, fun h => absurd h ho⟩

/-- Witness for C9 amended: a `DELETE` with a well-formed body. -/
theorem non_post_survey_witness :
    ("DELETE" : String) ≠ "POST" ∧
    (serve Env.quiet (DB.empty true)
      ⟨"DELETE", "/submitSurvey", some ⟨"a@x.com", "1 Main St", 80, ""⟩, none⟩).1 =
      DB.empty true ∧
    (serve Env.quiet (DB.empty true)
      ⟨"DELETE", "/submitSurvey", some ⟨"a@x.com", "1 Main St", 80, ""⟩, none⟩).2.status = 405 :=
  have h := non_post_survey Env.quiet (DB.empty true)
    ⟨"DELETE", "/submitSurvey", some ⟨"a@x.com", "1 Main St", 80, ""⟩, none⟩ rfl (by decide)
  ⟨by decide, h.1, h.2.1 (by decide)⟩

/-- A failing insert is answered `500` and writes nothing, whatever the lookup returned short
of a hit. -/
theorem insert_error_gives_500 (env : Env) (db : DB) (r : Request) (survey : SurveyResponse)
    (hpath : r.Path = "/submitSurvey") (hm : r.Method = "POST")
    (hbody : r.survey = some survey)
    (he : survey.Email ≠ "") (ha : survey.Address ≠ "")
    (hlookup : ∀ e, queryEmail env db survey.Email ≠ .ok e)
    (hx : env.execErr = true) :
    (serve env db r).2.status = 500 ∧ (serve env db r).1 = db := by
  rw [serve_submitSurvey env db r hpath,
    handleSurvey_lookup_not_ok env db r _ survey hm hbody he ha hlookup]
  rw [execInsert_err env db _ _ _ _ hx]
  exact ⟨rfl, rfl⟩

/-- A lookup that fails with a driver error is not answered `500`: when the insert then
succeeds the request is answered `200` and the row is written. -/
theorem lookup_error_then_insert (env : Env) (db : DB) (r : Request) (survey : SurveyResponse)
    (hpath : r.Path = "/submitSurvey") (hm : r.Method = "POST")
    (hbody : r.survey = some survey)
    (he : survey.Email ≠ "") (ha : survey.Address ≠ "")
    (hnew : ∀ row ∈ db.rows, row.Email ≠ survey.Email)
    (hq : env.queryErr = true) (hx : env.execErr = false) :
    (serve env db r).2.status = 200 ∧
    (serve env db r).1.rows.length = db.rows.length + 1 := by
  rw [serve_submitSurvey env db r hpath,
    handleSurvey_lookup_not_ok env db r _ survey hm hbody he ha
      (by intro e; simp [queryEmail, hq])]
  rw [execInsert_ok env db _ _ _ _ hx hnew]
  refine ⟨rfl, ?_⟩
  simp

/-- C5 at the failing input: the submission of the spec's example on an empty table, the
email lookup failing with a driver error and the insert succeeding, is answered `200` (not
`500`) and the row is stored. -/
theorem lookup_error_answered_200 :
    queryEmail { Env.quiet with queryErr := true } (DB.empty true) "a@x.com" = .err ∧
    (serve { Env.quiet with queryErr := true } (DB.empty true)
      ⟨"POST", "/submitSurvey", some ⟨"a@x.com", "1 Main St", 80, ""⟩, none⟩).2.status = 200 ∧
    (serve { Env.quiet with queryErr := true } (DB.empty true)
      ⟨"POST", "/submitSurvey", some ⟨"a@x.com", "1 Main St", 80, ""⟩, none⟩).1.rows =
      [⟨1, "a@x.com", "1 Main St", 80, "Высокий уровень безопасности"⟩] := by
  decide

/-- Without the `UNIQUE` constraint, a failed lookup lets a stored email in a second time. -/
theorem lookup_error_duplicates :
    ((serve { Env.quiet with queryErr := true }
      ⟨[⟨1, "a@x.com", "1 Main St", 80, "Высокий уровень безопасности"⟩], 2, false⟩
      ⟨"POST", "/submitSurvey", some ⟨"a@x.com", "2 Oak St", 20, ""⟩, none⟩).1.rows.map
        (fun row => row.Email)) = ["a@x.com", "a@x.com"] := by
  decide

/-! ## Email uniqueness -/

theorem handleSurvey_db (env : Env) (db : DB) (r : Request) (w : ResponseWriter) :
    (handleSurvey env db r w).1 = db ∨
    ∃ (survey : SurveyResponse) (level : String),
      (∀ e, queryEmail env db survey.Email ≠ .ok e) ∧
      (handleSurvey env db r w).1 =
        { db with
            rows := db.rows ++ [⟨db.nextID, survey.Email, survey.Address, survey.Score, level⟩],
            nextID := db.nextID + 1 } := by
  by_cases hm : r.Method = "POST"
  · cases hbody : r.survey with
    | none => left; rw [handleSurvey_no_body env db r w hm hbody]
    | some survey =>
      by_cases hempty : survey.Email = "" ∨ survey.Address = ""
      · left; rw [handleSurvey_empty_field env db r w survey hm hbody hempty]
      · have he : survey.Email ≠ "" := fun h => hempty (Or.inl h)
        have ha : survey.Address ≠ "" := fun h => hempty (Or.inr h)
        by_cases hlookup : ∃ e, queryEmail env db survey.Email = .ok e
        · obtain ⟨e, hfound⟩ := hlookup
          left; rw [handleSurvey_lookup_ok env db r w survey e hm hbody he ha hfound]
        · have hno : ∀ e, queryEmail env db survey.Email ≠ .ok e :=
            fun e h => hlookup ⟨e, h⟩
          rw [handleSurvey_lookup_not_ok env db r w survey hm hbody he ha hno]
          cases hins : execInsert env db survey.Email survey.Address survey.Score
              (if survey.Score > 75 then "Высокий уровень безопасности"
               else if survey.Score > 50 then "Средний уровень безопасности"
               else "Низкий уровень безопасности") with
          | ok db1 =>
            right
            exact ⟨survey, _, hno, execInsert_shape env db _ _ _ _ db1 hins⟩
          | errNoRows => left; rfl
          | err => left; rfl
  · left
    rw [handleSurvey_not_post env db r w hm]
    split_ifs <;> rfl

theorem not_stored_of_lookup (env : Env) (db : DB) (email : String)
    (hq : env.queryErr = false) (hno : ∀ e, queryEmail env db email ≠ .ok e) :
    ∀ row ∈ db.rows, row.Email ≠ email := by
  intro row hrow hemail
  exact hno email (queryEmail_found env db email hq ⟨row, hrow, hemail⟩)

theorem serve_db (env : Env) (db : DB) (r : Request) :
    (serve env db r).1 = db ∨ (serve env db r).1 = (handleSurvey env db r ResponseWriter.new).1 := by
  unfold serve
  split_ifs <;> simp

theorem serve_keeps_emails_distinct (env : Env) (db : DB) (r : Request)
    (hq : env.queryErr = false)
    (hinv : db.rows.Pairwise (fun a b => a.Email ≠ b.Email)) :
    (serve env db r).1.rows.Pairwise (fun a b => a.Email ≠ b.Email) := by
  rcases serve_db env db r with h | h
  · rw [h]; exact hinv
  · rw [h]
    rcases handleSurvey_db env db r ResponseWriter.new with h2 | ⟨survey, level, hno, h2⟩
    · rw [h2]; exact hinv
    · rw [h2]
      have hnew := not_stored_of_lookup env db survey.Email hq hno
      simp only [List.pairwise_append, List.pairwise_singleton, List.mem_singleton, true_and]
      refine ⟨hinv, ?_⟩
      intro a ha b hb
      subst hb
      exact hnew a ha

theorem run_keeps_emails_distinct (reqs : List (Env × Request)) (db : DB)
    (hq : ∀ e ∈ reqs, e.1.queryErr = false)
    (hinv : db.rows.Pairwise (fun a b => a.Email ≠ b.Email)) :
    (run db reqs).rows.Pairwise (fun a b => a.Email ≠ b.Email) := by
  induction reqs generalizing db with
  | nil => exact hinv
  | cons e rest ih =>
    obtain ⟨env, r⟩ := e
    show (run (serve env db r).1 rest).rows.Pairwise _
    apply ih
    · intro e he
      exact hq e (List.mem_cons_of_mem _ he)
    · exact serve_keeps_emails_distinct env db r (hq (env, r) (List.mem_cons_self _ _)) hinv

/-- C6: after any sequence of requests (to `/submitSurvey`, and to any other route as well)
served one after another from an empty table, with every email lookup answering correctly
(no driver error on the lookup; inserts may fail or succeed, with or without the `UNIQUE`
constraint), no two stored rows share an email. Every initial segment of a sequence is a
sequence, so this holds in every reachable table. -/
theorem emails_stay_unique (uniqueEmail : Bool) (reqs : List (Env × Request))
    (hq : ∀ e ∈ reqs, e.1.queryErr = false) :
    (run (DB.empty uniqueEmail) reqs).rows.Pairwise (fun a b => a.Email ≠ b.Email) :=
  run_keeps_emails_distinct reqs (DB.empty uniqueEmail) hq List.Pairwise.nil

/-- Witness for C6: the same email submitted twice, then another, without the constraint. -/
theorem emails_stay_unique_witness :
    (run (DB.empty false)
      [(Env.quiet, ⟨"POST", "/submitSurvey", some ⟨"a@x.com", "1 Main St", 80, ""⟩, none⟩),
       (Env.quiet, ⟨"POST", "/submitSurvey", some ⟨"a@x.com", "2 Oak St", 20, ""⟩, none⟩),
       (Env.quiet, ⟨"POST", "/submitSurvey", some ⟨"b@x.com", "3 Elm St", 60, ""⟩, none⟩)]
      ).rows.Pairwise (fun a b => a.Email ≠ b.Email) :=
  emails_stay_unique false
    [(Env.quiet, ⟨"POST", "/submitSurvey", some ⟨"a@x.com", "1 Main St", 80, ""⟩, none⟩),
     (Env.quiet, ⟨"POST", "/submitSurvey", some ⟨"a@x.com", "2 Oak St", 20, ""⟩, none⟩),
     (Env.quiet, ⟨"POST", "/submitSurvey", some ⟨"b@x.com", "3 Elm St", 60, ""⟩, none⟩)]
    (by decide)

/-! ## The alert endpoint -/

theorem serve_fireAlert (env : Env) (db : DB) (r : Request) (hpath : r.Path = "/fire-alert") :
    serve env db r = (db, (handleFireAlert env db r ResponseWriter.new).finish) := by
  unfold serve
  simp [hpath]

theorem topByIdDesc_append_greatest (rows : List Row) (x : Row)
    (hlt : ∀ row ∈ rows, row.ID < x.ID) : topByIdDesc (rows ++ [x]) = some x := by
  induction rows with
  | nil => rfl
  | cons r t ih =>
    have ht := ih (fun row hrow => hlt row (List.mem_cons_of_mem _ hrow))
    have hr := hlt r (List.mem_cons_self _ _)
    show topByIdDesc (r :: (t ++ [x])) = some x
    simp [topByIdDesc, ht, hr]

theorem handleFireAlert_ok (env : Env) (db : DB) (r : Request) (w : ResponseWriter)
    (address : String) (hm : r.Method = "GET" ∨ r.Method = "POST")
    (hquery : queryLastAddress env db = .ok address) :
    handleFireAlert env db r w =
      ((enableCors w).SetHeader "Content-Type" "application/json").Write
        (Chunk.json [("address", address)]) := by
  unfold handleFireAlert
  have hnot : ¬ (r.Method ≠ MethodGet ∧ r.Method ≠ MethodPost) := by
    rcases hm with h | h <;> simp [MethodGet, MethodPost, h]
  simp only [hnot, if_false, hquery]

theorem handleFireAlert_fail (env : Env) (db : DB) (r : Request) (w : ResponseWriter)
    (hm : r.Method = "GET" ∨ r.Method = "POST")
    (hquery : ∀ address, queryLastAddress env db ≠ .ok address) :
    handleFireAlert env db r w =
      (((enableCors w).SetHeader "Content-Type" "application/json").WriteHeader 500).Write
        (Chunk.json [("error", "Ошибка получения адреса из БД")]) := by
  unfold handleFireAlert
  have hnot : ¬ (r.Method ≠ MethodGet ∧ r.Method ≠ MethodPost) := by
    rcases hm with h | h <;> simp [MethodGet, MethodPost, h]
  simp only [hnot, if_false]
  rfl

/-- C4: after two accepted submissions A then B (distinct emails not stored, non-empty
fields, database calls succeeding, every stored `ID` below the next one to assign), a GET or
POST to `/fire-alert` whose query succeeds is answered `200` with content type
`application/json` and the JSON object whose one entry is `address` with the address of B,
the row with the greatest `ID`; when the two addresses differ this is not the object
carrying the address of A. The table is left as it was. -/
theorem alert_returns_latest (envA envB envF : Env) (db : DB) (rA rB rF : Request)
    (a b : SurveyResponse)
    (hpathA : rA.Path = "/submitSurvey") (hmA : rA.Method = "POST") (hbodyA : rA.survey = some a)
    (hpathB : rB.Path = "/submitSurvey") (hmB : rB.Method = "POST") (hbodyB : rB.survey = some b)
    (heA : a.Email ≠ "") (haA : a.Address ≠ "") (heB : b.Email ≠ "") (haB : b.Address ≠ "")
    (hdistinct : a.Email ≠ b.Email)
    (hnewA : ∀ row ∈ db.rows, row.Email ≠ a.Email)
    (hnewB : ∀ row ∈ db.rows, row.Email ≠ b.Email)
    (hqA : envA.queryErr = false) (hxA : envA.execErr = false)
    (hqB : envB.queryErr = false) (hxB : envB.execErr = false)
    (hids : ∀ row ∈ db.rows, row.ID < db.nextID)
    (hpathF : rF.Path = "/fire-alert") (hmF : rF.Method = "GET" ∨ rF.Method = "POST")
    (hqF : envF.queryErr = false) :
    (serve envF (serve envB (serve envA db rA).1 rB).1 rF).2.status = 200 ∧
    (serve envF (serve envB (serve envA db rA).1 rB).1 rF).2.body =
      [Chunk.json [("address", b.Address)]] ∧
    (serve envF (serve envB (serve envA db rA).1 rB).1 rF).2.header.Get "Content-Type" =
      some "application/json" ∧
    (a.Address ≠ b.Address →
      (serve envF (serve envB (serve envA db rA).1 rB).1 rF).2.body ≠
        [Chunk.json [("address", a.Address)]]) ∧
    (serve envF (serve envB (serve envA db rA).1 rB).1 rF).1 =
      (serve envB (serve envA db rA).1 rB).1 := by
  rw [serve_accept_db envA db rA a hpathA hmA hbodyA heA haA hnewA hqA hxA]
  have hnewB2 : ∀ row ∈ db.rows ++ [(⟨db.nextID, a.Email, a.Address, a.Score,
      if a.Score > 75 then "Высокий уровень безопасности"
      else if a.Score > 50 then "Средний уровень безопасности"
      else "Низкий уровень безопасности"⟩ : Row)], row.Email ≠ b.Email := by
    intro row hrow
    rcases List.mem_append.mp hrow with h | h
    · exact hnewB row h
    · rw [List.mem_singleton.mp h]
      exact hdistinct
  rw [serve_accept_db envB _ rB b hpathB hmB hbodyB heB haB hnewB2 hqB hxB,
    serve_fireAlert envF _ rF hpathF]
  have htop : ∀ (level : String) (rows : List Row) (n : Nat),
      (∀ row ∈ rows, row.ID < n) →
      queryLastAddress envF
        { rows := rows ++ [(⟨n, b.Email, b.Address, b.Score, level⟩ : Row)],
          nextID := n + 1, uniqueEmail := db.uniqueEmail } = .ok b.Address := by
    intro level rows n hlt
    unfold queryLastAddress
    rw [hqF]
    simp only [Bool.false_eq_true, if_false]
    rw [topByIdDesc_append_greatest _ _ hlt]
  rw [handleFireAlert_ok envF _ rF _ b.Address hmF (htop _ _ _ (by
    intro row hrow
    rcases List.mem_append.mp hrow with h | h
    · exact Nat.lt_succ_of_lt (hids row h)
    · rw [List.mem_singleton.mp h]
      exact Nat.lt_succ_self _))]
  refine ⟨rfl, rfl, rfl, ?_, rfl⟩
  intro hne hbody
  have h1 := List.head_eq_of_cons_eq hbody
  injection h1 with h2
  have h3 := List.head_eq_of_cons_eq h2
  exact hne (Prod.mk.inj h3).2.symm

/-- Witness for C4: A then B submitted to a table that already holds one row, then a GET. -/
theorem alert_returns_latest_witness :
    (serve Env.quiet
      (serve Env.quiet
        (serve Env.quiet ⟨[⟨4, "c@x.com", "9 Elm St", 10, "x"⟩], 5, true⟩
          ⟨"POST", "/submitSurvey", some ⟨"a@x.com", "1 Main St", 80, ""⟩, none⟩).1
        ⟨"POST", "/submitSurvey", some ⟨"b@x.com", "2 Oak St", 20, ""⟩, none⟩).1
      ⟨"GET", "/fire-alert", none, none⟩).2.body = [Chunk.json [("address", "2 Oak St")]] :=
  (alert_returns_latest Env.quiet Env.quiet Env.quiet
    ⟨[⟨4, "c@x.com", "9 Elm St", 10, "x"⟩], 5, true⟩
    ⟨"POST", "/submitSurvey", some ⟨"a@x.com", "1 Main St", 80, ""⟩, none⟩
    ⟨"POST", "/submitSurvey", some ⟨"b@x.com", "2 Oak St", 20, ""⟩, none⟩
    ⟨"GET", "/fire-alert", none, none⟩
    ⟨"a@x.com", "1 Main St", 80, ""⟩ ⟨"b@x.com", "2 Oak St", 20, ""⟩
    rfl rfl rfl rfl rfl rfl (by decide) (by decide) (by decide) (by decide) (by decide)
    (by decide) (by decide) rfl rfl rfl rfl (by decide) rfl (Or.inl rfl) rfl).2.1

/-- C8: a GET or POST to `/fire-alert` on a table without rows, or whose query fails, is
answered (the handler is a total function) with status `500`, content type
`application/json` and the JSON object whose only key is `error`; the table is left as it
was. -/
theorem alert_failure_gives_500 (env : Env) (db : DB) (r : Request)
    (hpath : r.Path = "/fire-alert") (hm : r.Method = "GET" ∨ r.Method = "POST")
    (hfail : db.rows = [] ∨ env.queryErr = true) :
    (serve env db r).2.status = 500 ∧
    (serve env db r).2.header.Get "Content-Type" = some "application/json" ∧
    (serve env db r).2.body = [Chunk.json [("error", "Ошибка получения адреса из БД")]] ∧
    (serve env db r).1 = db := by
  have hquery : ∀ address, queryLastAddress env db ≠ .ok address := by
    intro address
    unfold queryLastAddress
    rcases hfail with h | h
    · rw [h]
      split_ifs <;> simp [topByIdDesc]
    · simp [h]
  rw [serve_fireAlert env db r hpath, handleFireAlert_fail env db r _ hm hquery]
  exact ⟨rfl, rfl, rfl, rfl⟩

/-- Witness for C8: a POST to `/fire-alert` on the empty table. -/
theorem alert_failure_gives_500_witness :
    (DB.empty true).rows = [] ∧
    (serve Env.quiet (DB.empty true) ⟨"POST", "/fire-alert", none, none⟩).2.status = 500 :=
  ⟨rfl,
   (alert_failure_gives_500 Env.quiet (DB.empty true) ⟨"POST", "/fire-alert", none, none⟩
      rfl (Or.inr rfl) (Or.inl rfl)).1⟩

/-! ## The generation proxy -/

/-- C7 as stated fails: the service answers `404` with a body; the caller gets the body but
status `200`. -/
theorem generate_status_not_relayed :
    ({ Env.quiet with post := fun _ => some ⟨404, [110, 111]⟩ } : Env).post
      ⟨"llama3", "hi", false⟩ = some ⟨404, [110, 111]⟩ ∧
    (serve { Env.quiet with post := fun _ => some ⟨404, [110, 111]⟩ } (DB.empty true)
      ⟨"POST", "/generate", none, some ⟨"m", "hi", true⟩⟩).2.status = 200 ∧
    (serve { Env.quiet with post := fun _ => some ⟨404, [110, 111]⟩ } (DB.empty true)
      ⟨"POST", "/generate", none, some ⟨"m", "hi", true⟩⟩).2.status ≠ 404 := by
  decide

/-- C7 amended: for a POST to `/generate` with a decodable body, when the service, asked for
model `llama3` with the prompt of the body and streaming off, answers with status `c` and
body `b`, the caller gets body `b` unmodified under content type `application/json`, and
status `200` whatever `c` is. -/
theorem generate_relays_body (env : Env) (db : DB) (r : Request) (request : OllamaRequest)
    (c : Nat) (b : Bytes)
    (hpath : r.Path = "/generate") (hm : r.Method = "POST")
    (hbody : r.ollama = some request)
    (hreply : env.post ⟨"llama3", request.Prompt, false⟩ = some ⟨c, b⟩) :
    (serve env db r).2.body = [Chunk.raw b] ∧
    (serve env db r).2.status = 200 ∧
    (serve env db r).2.header.Get "Content-Type" = some "application/json" ∧
    (serve env db r).1 = db := by
  have hs : serve env db r = (db, (handleGenerate env r ResponseWriter.new).finish) := by
    unfold serve
    simp [hpath]
  have hg : handleGenerate env r ResponseWriter.new =
      ((enableCors ResponseWriter.new).SetHeader "Content-Type" "application/json").Write
        (Chunk.raw b) := by
    unfold handleGenerate
    simp only [MethodOptions, MethodPost, hm, hbody, hreply, ne_eq, not_true_eq_false,
      if_false, (by decide : ¬ "POST" = "OPTIONS")]
  rw [hs, hg]
  exact ⟨rfl, rfl, rfl, rfl⟩

/-- Witness for C7 amended: the service answers `503` with three bytes. -/
theorem generate_relays_body_witness :
    (serve { Env.quiet with post := fun _ => some ⟨503, [1, 2, 3]⟩ } (DB.empty true)
      ⟨"POST", "/generate", none, some ⟨"m", "hi", true⟩⟩).2.body = [Chunk.raw [1, 2, 3]] ∧
    (serve { Env.quiet with post := fun _ => some ⟨503, [1, 2, 3]⟩ } (DB.empty true)
      ⟨"POST", "/generate", none, some ⟨"m", "hi", true⟩⟩).2.status = 200 :=
  have h := generate_relays_body { Env.quiet with post := fun _ => some ⟨503, [1, 2, 3]⟩ }
    (DB.empty true) ⟨"POST", "/generate", none, some ⟨"m", "hi", true⟩⟩ ⟨"m", "hi", true⟩
    503 [1, 2, 3] rfl rfl rfl rfl
  ⟨h.1, h.2.1⟩

/-! ## Cross-origin headers on every route -/

/-- C10: every response of the five routes `/submitSurvey`, `/fire-alert`, `/downloadAccess`,
`/generate` and `/ping`, for every method, body, table and outcome of the outside calls,
carries `Access-Control-Allow-Origin: *`, `Access-Control-Allow-Methods: POST, GET, OPTIONS`
and `Access-Control-Allow-Headers: Content-Type`. -/
theorem cors_on_every_route (env : Env) (db : DB) (r : Request)
    (hroute : r.Path ∈ ["/submitSurvey", "/fire-alert", "/downloadAccess", "/generate", "/ping"]) :
    (serve env db r).2.header.Get "Access-Control-Allow-Origin" = some "*" ∧
    (serve env db r).2.header.Get "Access-Control-Allow-Methods" = some "POST, GET, OPTIONS" ∧
    (serve env db r).2.header.Get "Access-Control-Allow-Headers" = some "Content-Type" := by
  show (serve env db r).2.header.hasCors
  unfold serve
  split_ifs with h1 h2 h3 h4 h5
  · exact corsOk_finish _ (corsOk_handleSurvey env db r _ rfl)
  · exact corsOk_finish _ (corsOk_downloadAccessHandler env _ rfl)
  · exact corsOk_finish _ (corsOk_handleGenerate env r _ rfl)
  · exact corsOk_finish _ (corsOk_handleFireAlert env db r _ rfl)
  · exact corsOk_finish _ (corsOk_handlePing _ rfl)
  · simp only [List.mem_cons, List.mem_singleton, List.not_mem_nil, or_false] at hroute
    rcases hroute with h | h | h | h | h <;> contradiction

/-- Witness for C10: the missing-file branch of `/downloadAccess` under an odd method. -/
theorem cors_on_every_route_witness :
    ("/downloadAccess" ∈ ["/submitSurvey", "/fire-alert", "/downloadAccess", "/generate", "/ping"]) ∧
    (serve { Env.quiet with fileNotExist := true } (DB.empty true)
        ⟨"DELETE", "/downloadAccess", none, none⟩).2.header.Get
      "Access-Control-Allow-Origin" = some "*" :=
  ⟨by decide,
   (cors_on_every_route { Env.quiet with fileNotExist := true } (DB.empty true)
      ⟨"DELETE", "/downloadAccess", none, none⟩ (by decide)).1⟩

end Server
